import Mathlib

/-!
Shallow embedding of the point-of-sale web application (single script file,
IndexedDB-backed).  Numbers that the script manipulates are JavaScript
numbers; monetary amounts and percentage inputs are modelled as `ℚ`,
quantities and stock counts (always produced by `parseInt`) as `ℤ`,
auto-increment primary keys as `ℕ`.

The definitions mirror the source functions (`addToCart`,
`increaseQuantity`, `decreaseQuantity`, `updateQuantity`, `removeFromCart`,
`clearCart`, `calculateTotal`, `processPayment`, `saveProduct`,
`saveSupplier`, `deleteSupplier`, `backupData`, `restoreData`) and the
semantics of the IndexedDB wrapper (`addRecord` / `updateRecord` /
`deleteRecord` with unique secondary indexes on product `code`, supplier
`code` and transaction `invoice`).
-/

/-- An IndexedDB key as stored in a record field: the store keeps the
JavaScript value as-is, and keys of different types never compare equal
(a string key such as `"3"` is distinct from the number key `3`). -/
inductive IDBKey where
  | num (q : ℚ)
  | str (s : String)
deriving DecidableEq, Repr

/-- A record of the `products` store.  `supplierId` holds whatever value the
product form saved: the supplier dropdown's `value` (a string) or `null`. -/
structure Product where
  id : ℕ
  code : String
  name : String
  category : String
  price : ℚ
  cost : ℚ
  stock : ℤ
  minStock : ℤ
  supplierId : Option IDBKey
deriving DecidableEq, Repr

/-- A line of the in-memory cart, as pushed by `addToCart`: the `stock`
field is the product's stock snapshot cached at the time the line was
created. -/
structure CartItem where
  id : ℕ
  code : String
  name : String
  price : ℚ
  quantity : ℤ
  stock : ℤ
deriving DecidableEq, Repr

/-- One entry of a committed transaction's `items` array (a value snapshot
of a cart line). -/
structure TransactionItem where
  productId : ℕ
  code : String
  name : String
  price : ℚ
  quantity : ℤ
deriving DecidableEq, Repr

/-- A record of the `transactions` store. -/
structure TransactionRec where
  id : ℕ
  invoice : String
  items : List TransactionItem
  subtotal : ℚ
  discount : ℚ
  tax : ℚ
  total : ℚ
  paymentMethod : String
  amountReceived : ℚ
  change : ℚ
deriving DecidableEq, Repr

/-- A record of the `suppliers` store. -/
structure Supplier where
  id : ℕ
  code : String
  name : String
  contact : String
  address : String
  email : Option String
  phone : Option String
deriving DecidableEq, Repr

/-- A record of the `settings` store (fixed string key, free-form payload;
the payload content is opaque to backup/restore). -/
structure SettingRec where
  id : String
  payload : String
deriving DecidableEq, Repr

/-- A record of the `notifications` store. -/
structure NotifRec where
  id : ℕ
  message : String
  read : Bool
deriving DecidableEq, Repr

/-- The persisted database: the five object stores plus the auto-increment
key generators of the stores that use them. -/
structure DB where
  products : List Product
  transactions : List TransactionRec
  suppliers : List Supplier
  settings : List SettingRec
  notifications : List NotifRec
  productKeyGen : ℕ
  transactionKeyGen : ℕ
  supplierKeyGen : ℕ
deriving DecidableEq, Repr

/-- Apply `f` to the first list element satisfying `p`, leaving the rest
unchanged.  This is the effect of the source pattern
`const item = cart.find(...); item.field = ...` (in-place mutation of the
found element) and of an IndexedDB `put` keyed on an existing primary key. -/
def modifyFirst (p : α → Bool) (f : α → α) : List α → List α
  | [] => []
  | a :: as => if p a then f a :: as else a :: modifyFirst p f as

/-- Remove the first list element satisfying `p` (the effect of
`findIndex` followed by `splice(index, 1)`). -/
def removeFirst (p : α → Bool) : List α → List α
  | [] => []
  | a :: as => if p a then as else a :: removeFirst p as

/-- JavaScript's `String.prototype.trim()`: strip whitespace from both
ends (written out structurally over the character list so that concrete
instances evaluate). -/
def jsTrim (s : String) : String :=
  ⟨((s.data.dropWhile Char.isWhitespace).reverse.dropWhile
      Char.isWhitespace).reverse⟩

/-- Outcome reported by a cart operation (toast message / early return in
the source). -/
inductive CartMsg where
  | added
  | addedQty
  | increased
  | decreased
  | setQty
  | removed
  | cleared
  | insufficientStock
  | outOfStock
  | noop
deriving DecidableEq, Repr

/-- Source `addToCart(product)`: if the product is already in the cart,
increment its quantity by 1 provided the current quantity is below the
stock of the product *argument* (the line's cached `stock` snapshot is not
consulted and not refreshed); otherwise refuse with an
insufficient-stock warning.  If the product is not in the cart, push a new
line with quantity 1 when its stock is positive, else refuse with an
out-of-stock warning. -/
def addToCart (product : Product) (cart : List CartItem) :
    List CartItem × CartMsg :=
  match cart.find? (fun item => item.id == product.id) with
  | some existingItem =>
    if existingItem.quantity < product.stock then
      (modifyFirst (fun item => item.id == product.id)
        (fun item => { item with quantity := item.quantity + 1 }) cart,
       CartMsg.addedQty)
    else
      (cart, CartMsg.insufficientStock)
  | none =>
    if 0 < product.stock then
      (cart ++ [{ id := product.id, code := product.code,
                  name := product.name, price := product.price,
                  quantity := 1, stock := product.stock }],
       CartMsg.added)
    else
      (cart, CartMsg.outOfStock)

/-- Source `increaseQuantity(id)`: increment the found line's quantity when
it is below the line's cached stock snapshot. -/
def increaseQuantity (id : ℕ) (cart : List CartItem) :
    List CartItem × CartMsg :=
  match cart.find? (fun item => item.id == id) with
  | some item =>
    if item.quantity < item.stock then
      (modifyFirst (fun i => i.id == id)
        (fun i => { i with quantity := i.quantity + 1 }) cart,
       CartMsg.increased)
    else
      (cart, CartMsg.insufficientStock)
  | none => (cart, CartMsg.noop)

/-- Source `decreaseQuantity(id)`: decrement the found line's quantity when
it is above 1. -/
def decreaseQuantity (id : ℕ) (cart : List CartItem) :
    List CartItem × CartMsg :=
  match cart.find? (fun item => item.id == id) with
  | some item =>
    if 1 < item.quantity then
      (modifyFirst (fun i => i.id == id)
        (fun i => { i with quantity := i.quantity - 1 }) cart,
       CartMsg.decreased)
    else
      (cart, CartMsg.noop)
  | none => (cart, CartMsg.noop)

/-- Source `removeFromCart(id)`: remove the first line with the given id. -/
def removeFromCart (id : ℕ) (cart : List CartItem) :
    List CartItem × CartMsg :=
  match cart.findIdx? (fun item => item.id == id) with
  | some _ => (removeFirst (fun item => item.id == id) cart, CartMsg.removed)
  | none => (cart, CartMsg.noop)

/-- Source `updateQuantity(id, quantity)`: a quantity below 1 removes the
line; a quantity above the line's cached stock snapshot clamps to the
snapshot with an insufficient-stock warning; otherwise the quantity is set
exactly. -/
def updateQuantity (id : ℕ) (quantity : ℤ) (cart : List CartItem) :
    List CartItem × CartMsg :=
  if quantity < 1 then removeFromCart id cart
  else
    match cart.find? (fun item => item.id == id) with
    | some item =>
      if quantity ≤ item.stock then
        (modifyFirst (fun i => i.id == id)
          (fun i => { i with quantity := quantity }) cart,
         CartMsg.setQty)
      else
        (modifyFirst (fun i => i.id == id)
          (fun i => { i with quantity := i.stock }) cart,
         CartMsg.insufficientStock)
    | none => (cart, CartMsg.noop)

/-- Source `clearCart()`: empties the cart after a user confirmation dialog
(modelled by the `confirmed` flag). -/
def clearCart (confirmed : Bool) (cart : List CartItem) :
    List CartItem × CartMsg :=
  if cart ≠ [] ∧ confirmed then ([], CartMsg.cleared) else (cart, CartMsg.noop)

/-- Subtotal of a cart: `cart.reduce((sum, item) => sum + item.price * item.quantity, 0)`. -/
def cartSubtotal (cart : List CartItem) : ℚ :=
  cart.foldl (fun sum item => sum + item.price * (item.quantity : ℚ)) 0

/-- Source `calculateTotal()`: starting from the subtotal, subtract the
discount when the discount toggle is checked and the entered value is
positive, then add tax on the running total when the tax toggle is checked
and the entered value is positive.  Tax is therefore computed on the
post-discount amount. -/
def calculateTotal (cart : List CartItem) (discountOn : Bool)
    (discountValue : ℚ) (taxOn : Bool) (taxValue : ℚ) : ℚ :=
  let subtotal := cartSubtotal cart
  let afterDiscount :=
    if discountOn ∧ 0 < discountValue then
      subtotal - subtotal * (discountValue / 100)
    else subtotal
  if taxOn ∧ 0 < taxValue then
    afterDiscount + afterDiscount * (taxValue / 100)
  else afterDiscount

/-- The checkout code does not reuse the number `calculateTotal` produced:
it re-reads the rendered text of the total element.  With the seeded (and
never rewritten) currency settings `{precision: 0, separator: '.'}` the
element holds `"Rp " ++ amount.toFixed(0)` with thousands separators; the
reader strips every non-digit character and parses the remaining digits.
`toFixed(0)` rounds half away from zero toward positive infinity
(`⌊x + 1/2⌋`), and stripping non-digits also drops a leading minus sign,
leaving the absolute value. -/
def displayedTotal (x : ℚ) : ℚ := ((⌊x + 1/2⌋).natAbs : ℚ)

/-- Failure modes of `processPayment`: empty cart, insufficient payment
(both checked before any write), or a storage-layer rejection of the
transaction write (the unique index on `invoice` refuses a duplicate
invoice number, caught as a generic failure). -/
inductive PayError where
  | emptyCart
  | insufficientPayment
  | storageFailure
deriving DecidableEq, Repr

/-- Snapshot of a cart line taken into a transaction's `items` array. -/
def toTransactionItem (item : CartItem) : TransactionItem :=
  { productId := item.id, code := item.code, name := item.name,
    price := item.price, quantity := item.quantity }

/-- One stock write of the commit loop: re-read the product with the line's
id and write it back with `product.stock -= item.quantity` (no clamping).
When no product with that id exists the read yields `undefined` and the
write never happens. -/
def decrementStock (products : List Product) (item : CartItem) :
    List Product :=
  modifyFirst (fun p => p.id == item.id)
    (fun p => { p with stock := p.stock - item.quantity }) products

/-- The discount figure recomputed inside `processPayment`: keyed only on
the toggle state (unlike `calculateTotal`, the entered value need not be
positive). -/
def commitDiscount (cart : List CartItem) (discountOn : Bool)
    (discountValue : ℚ) : ℚ :=
  if discountOn then cartSubtotal cart * (discountValue / 100) else 0

/-- The tax figure recomputed inside `processPayment`: tax on the
post-discount amount, keyed only on the toggle state. -/
def commitTax (cart : List CartItem) (discountOn : Bool) (discountValue : ℚ)
    (taxOn : Bool) (taxValue : ℚ) : ℚ :=
  if taxOn then
    (cartSubtotal cart - commitDiscount cart discountOn discountValue)
      * (taxValue / 100)
  else 0

/-- Source `processPayment()`.  The comparison total is read back from the
rendered total element (see `displayedTotal`); subtotal, discount and tax
are recomputed from the cart, this time keying only on the toggle state
(not on the entered value being positive).  On success one transaction
record is added (rejected wholesale if its invoice number already exists)
and then each cart line independently decrements its product's stock. -/
def processPayment (db : DB) (cart : List CartItem) (discountOn : Bool)
    (discountValue : ℚ) (taxOn : Bool) (taxValue : ℚ)
    (paymentMethod : String) (invoice : String) (amountReceived : ℚ) :
    DB × Option PayError :=
  if cart.isEmpty then (db, some PayError.emptyCart)
  else
    let total := displayedTotal
      (calculateTotal cart discountOn discountValue taxOn taxValue)
    if amountReceived < total then (db, some PayError.insufficientPayment)
    else
      let subtotal := cartSubtotal cart
      let discount := commitDiscount cart discountOn discountValue
      let tax := commitTax cart discountOn discountValue taxOn taxValue
      if db.transactions.any (fun t => t.invoice == invoice) then
        (db, some PayError.storageFailure)
      else
        let txRec : TransactionRec :=
          { id := db.transactionKeyGen, invoice := invoice,
            items := cart.map toTransactionItem,
            subtotal := subtotal, discount := discount, tax := tax,
            total := total, paymentMethod := paymentMethod,
            amountReceived := amountReceived,
            change := amountReceived - total }
        ({ db with
            transactions := db.transactions ++ [txRec],
            transactionKeyGen := db.transactionKeyGen + 1,
            products := cart.foldl decrementStock db.products }, none)

/-- The product form's raw inputs: `price`/`cost` are `parseFloat` results
and `stock`/`minStock` are `parseInt` results (`none` models `NaN` from an
unparsable input); `supplier` is the dropdown's `value`, a string that is
empty when no supplier is chosen.  `id` is the hidden `product-id` field,
set only when editing. -/
structure ProductForm where
  id : Option ℕ
  code : String
  name : String
  category : String
  price : Option ℚ
  cost : Option ℚ
  stock : Option ℤ
  minStock : Option ℤ
  supplier : String
deriving DecidableEq, Repr

/-- Source `validateProductForm()`: code, name and category must be
nonempty after trimming; price, cost, stock and minStock must parse and be
nonnegative. -/
def validateProductForm (f : ProductForm) : Bool :=
  (jsTrim f.code != "") && (jsTrim f.name != "") && (jsTrim f.category != "") &&
  (match f.price with | none => false | some p => decide (0 ≤ p)) &&
  (match f.cost with | none => false | some c => decide (0 ≤ c)) &&
  (match f.stock with | none => false | some s => decide (0 ≤ s)) &&
  (match f.minStock with | none => false | some m => decide (0 ≤ m))

/-- The product record assembled by `saveProduct` from the form (only
reached when validation passed, so the `getD 0` defaults are never used).
The supplier reference is stored as the dropdown's string value, or `null`
when the string is empty. -/
def buildProduct (f : ProductForm) (id : ℕ) : Product :=
  { id := id, code := jsTrim f.code, name := jsTrim f.name,
    category := jsTrim f.category,
    price := f.price.getD 0, cost := f.cost.getD 0,
    stock := f.stock.getD 0, minStock := f.minStock.getD 0,
    supplierId :=
      if f.supplier = "" then none else some (IDBKey.str f.supplier) }

/-- Outcome of a catalog save: validation abort (inline field errors, no
write), a unique-code clash on create (surfaced as a field-level error on
the code field), a storage failure on update, or success. -/
inductive SaveResult where
  | saved
  | updated
  | invalid
  | codeFieldError
  | genericError
deriving DecidableEq, Repr

/-- Source `saveProduct(e)`.  Validation aborts with no write.  With an id
the record is written with `put` (replace by primary key; the unique index
on `code` still rejects when a different record holds the same code, which
the update path reports only generically).  Without an id the record is
added with a fresh auto-increment key; a duplicate code makes the add
reject with `ConstraintError`, reported as a field error on the code
field. -/
def saveProduct (db : DB) (f : ProductForm) : DB × SaveResult :=
  if ¬ validateProductForm f then (db, SaveResult.invalid)
  else
    match f.id with
    | some pid =>
      if db.products.any (fun p => p.id != pid && p.code == jsTrim f.code) then
        (db, SaveResult.genericError)
      else if db.products.any (fun p => p.id == pid) then
        let replaced := modifyFirst (fun p => p.id == pid)
          (fun _ => buildProduct f pid) db.products
        ({ db with products := replaced }, SaveResult.updated)
      else
        ({ db with products := db.products ++ [buildProduct f pid] },
         SaveResult.updated)
    | none =>
      if db.products.any (fun p => p.code == jsTrim f.code) then
        (db, SaveResult.codeFieldError)
      else
        ({ db with
            products := db.products ++ [buildProduct f db.productKeyGen],
            productKeyGen := db.productKeyGen + 1 }, SaveResult.saved)

/-- The supplier form's raw inputs (`email`/`phone` optional, empty string
when blank). -/
structure SupplierForm where
  id : Option ℕ
  code : String
  name : String
  contact : String
  address : String
  email : String
  phone : String
deriving DecidableEq, Repr

/-- Source `validateSupplierForm()`: code, name, contact and address must
be nonempty after trimming. -/
def validateSupplierForm (f : SupplierForm) : Bool :=
  (jsTrim f.code != "") && (jsTrim f.name != "") && (jsTrim f.contact != "") &&
  (jsTrim f.address != "")

/-- The supplier record assembled by `saveSupplier` from the form. -/
def buildSupplier (f : SupplierForm) (id : ℕ) : Supplier :=
  { id := id, code := jsTrim f.code, name := jsTrim f.name,
    contact := jsTrim f.contact, address := jsTrim f.address,
    email := if jsTrim f.email = "" then none else some (jsTrim f.email),
    phone := if jsTrim f.phone = "" then none else some (jsTrim f.phone) }

/-- Source `saveSupplier(e)`: as `saveProduct`, with the unique index on
the supplier `code`. -/
def saveSupplier (db : DB) (f : SupplierForm) : DB × SaveResult :=
  if ¬ validateSupplierForm f then (db, SaveResult.invalid)
  else
    match f.id with
    | some sid =>
      if db.suppliers.any (fun s => s.id != sid && s.code == jsTrim f.code) then
        (db, SaveResult.genericError)
      else if db.suppliers.any (fun s => s.id == sid) then
        let replaced := modifyFirst (fun s => s.id == sid)
          (fun _ => buildSupplier f sid) db.suppliers
        ({ db with suppliers := replaced }, SaveResult.updated)
      else
        ({ db with suppliers := db.suppliers ++ [buildSupplier f sid] },
         SaveResult.updated)
    | none =>
      if db.suppliers.any (fun s => s.code == jsTrim f.code) then
        (db, SaveResult.codeFieldError)
      else
        ({ db with
            suppliers := db.suppliers ++ [buildSupplier f db.supplierKeyGen],
            supplierKeyGen := db.supplierKeyGen + 1 }, SaveResult.saved)

/-- Outcome of `deleteSupplier`: blocked by the reference count, deleted,
or cancelled at the confirmation dialog. -/
inductive DeleteResult where
  | blocked
  | deleted
  | cancelled
deriving DecidableEq, Repr

/-- Source `deleteSupplier(id)`.  The id argument is the `parseInt` of the
button's data attribute, a *number*.  The guard counts products through the
`supplierId` index with that number as the key; records whose stored
`supplierId` is a string (which is what the product form saves) or null
never match a number key.  A positive count blocks the deletion; otherwise
the supplier record with that primary key is deleted. -/
def deleteSupplier (confirmed : Bool) (id : ℕ) (db : DB) :
    DB × DeleteResult :=
  if ¬ confirmed then (db, DeleteResult.cancelled)
  else
    let refCount := (db.products.filter
      (fun p => p.supplierId == some (IDBKey.num (id : ℚ)))).length
    if 0 < refCount then (db, DeleteResult.blocked)
    else
      ({ db with suppliers := removeFirst (fun s => s.id == id) db.suppliers },
       DeleteResult.deleted)

/-- The backup file: a JSON object whose keys are the four backed-up store
names (products, transactions, suppliers, settings), each holding the
array of all records of that store.  Notifications are not part of it. -/
structure BackupFile where
  products : List Product
  transactions : List TransactionRec
  suppliers : List Supplier
  settings : List SettingRec
deriving DecidableEq, Repr

/-- Source `backupData()`: `getAll` of each of the four stores. -/
def backupData (db : DB) : BackupFile :=
  { products := db.products, transactions := db.transactions,
    suppliers := db.suppliers, settings := db.settings }

/-- Clearing the four backed-up stores (the first half of the restore
sequence). -/
def clearBackedUpStores (db : DB) : DB :=
  { db with products := [], transactions := [], suppliers := [],
            settings := [] }

/-- Source `restoreData()` after the file is parsed: clear each of the
four stores, then `add` every backed-up record.  Records carry their `id`
field, so the original primary keys are re-used; the notifications store is
not touched. -/
def restoreData (b : BackupFile) (db : DB) : DB :=
  { db with products := b.products, transactions := b.transactions,
            suppliers := b.suppliers, settings := b.settings }

/-- The whole client-side application state: the persisted database plus
the transient in-memory cart. -/
structure AppState where
  db : DB
  cart : List CartItem
deriving DecidableEq, Repr

/-- `addToCart` as it acts on the whole application state: the source
function touches only the global `cart` array (and the DOM). -/
def appAddToCart (product : Product) (s : AppState) : AppState × CartMsg :=
  ({ s with cart := (addToCart product s.cart).1 },
   (addToCart product s.cart).2)

/-- `increaseQuantity` on the whole application state. -/
def appIncreaseQuantity (id : ℕ) (s : AppState) : AppState × CartMsg :=
  ({ s with cart := (increaseQuantity id s.cart).1 },
   (increaseQuantity id s.cart).2)

/-- `decreaseQuantity` on the whole application state. -/
def appDecreaseQuantity (id : ℕ) (s : AppState) : AppState × CartMsg :=
  ({ s with cart := (decreaseQuantity id s.cart).1 },
   (decreaseQuantity id s.cart).2)

/-- `updateQuantity` on the whole application state. -/
def appUpdateQuantity (id : ℕ) (quantity : ℤ) (s : AppState) :
    AppState × CartMsg :=
  ({ s with cart := (updateQuantity id quantity s.cart).1 },
   (updateQuantity id quantity s.cart).2)

/-- `removeFromCart` on the whole application state. -/
def appRemoveFromCart (id : ℕ) (s : AppState) : AppState × CartMsg :=
  ({ s with cart := (removeFromCart id s.cart).1 },
   (removeFromCart id s.cart).2)

/-- `clearCart` on the whole application state. -/
def appClearCart (confirmed : Bool) (s : AppState) : AppState × CartMsg :=
  ({ s with cart := (clearCart confirmed s.cart).1 },
   (clearCart confirmed s.cart).2)

/-- The cart line invariant claimed by the specification: every line holds
at least one unit and no more than its cached stock snapshot. -/
def CartInv (cart : List CartItem) : Prop :=
  ∀ l ∈ cart, 1 ≤ l.quantity ∧ l.quantity ≤ l.stock

instance : DecidablePred CartInv := fun cart =>
  List.decidableBAll _ cart

/-- The persistence-affecting operations of the product life cycle: a
catalog save (create when the form has no id, edit when it has one) and a
checkout commit. -/
inductive StockOp where
  | save (f : ProductForm)
  | commit (cart : List CartItem) (discountOn : Bool) (discountValue : ℚ)
      (taxOn : Bool) (taxValue : ℚ) (paymentMethod : String)
      (invoice : String) (amountReceived : ℚ)

/-- State transition of one product-life-cycle operation. -/
def applyStockOp (db : DB) : StockOp → DB
  | StockOp.save f => (saveProduct db f).1
  | StockOp.commit cart dOn dv tOn tv pm inv amt =>
      (processPayment db cart dOn dv tOn tv pm inv amt).1

/-- State reached after a sequence of product-life-cycle operations. -/
def applyStockOps (db : DB) : List StockOp → DB
  | [] => db
  | op :: ops => applyStockOps (applyStockOp db op) ops

/-- Side condition of one commit: the cart lines name pairwise distinct
products, primary keys in the store are unique, and no line asks for more
units than its product's currently stored stock. -/
def commitGuard (db : DB) (cart : List CartItem) : Bool :=
  decide ((cart.map CartItem.id).Nodup) &&
  decide ((db.products.map Product.id).Nodup) &&
  cart.all (fun i => db.products.all
    (fun p => p.id != i.id || decide (i.quantity ≤ p.stock)))

/-- Side condition of a whole operation sequence: every commit satisfies
`commitGuard` in the state it is applied to. -/
def stockOpsGuard (db : DB) : List StockOp → Bool
  | [] => true
  | op :: ops =>
    (match op with
     | StockOp.save _ => true
     | StockOp.commit cart _ _ _ _ _ _ _ => commitGuard db cart) &&
    stockOpsGuard (applyStockOp db op) ops

/-- Declarative view of the commit stock loop: the product keeps its
record, except that a product named by a cart line loses that line's
quantity from its stock. -/
def commitStockView (cart : List CartItem) (p : Product) : Product :=
  match cart.find? (fun i => i.id == p.id) with
  | some i => { p with stock := p.stock - i.quantity }
  | none => p

/-- Fresh database fixture: empty stores, key generators at their initial
value. -/
def emptyDB : DB :=
  { products := [], transactions := [], suppliers := [], settings := [],
    notifications := [], productKeyGen := 1, transactionKeyGen := 1,
    supplierKeyGen := 1 }

/-- Cart fixture of the specification's worked example: one line with
price 10000 and quantity 2. -/
def demoCart : List CartItem :=
  [{ id := 1, code := "A", name := "A", price := 10000, quantity := 2,
     stock := 10 }]

/-- Product fixture with a single unit in stock. -/
def unitStockProduct : Product :=
  { id := 1, code := "A", name := "A", category := "c", price := 5,
    cost := 3, stock := 1, minStock := 0, supplierId := none }

/-- Product fixture priced 101 with two units in stock (its exact total
under a 10% discount is the non-integer 90.9). -/
def prodB : Product :=
  { id := 1, code := "B", name := "B", category := "c", price := 101,
    cost := 0, stock := 2, minStock := 0, supplierId := none }

/-- Valid create form producing `prodB` (no supplier selected). -/
def createFormB : ProductForm :=
  { id := none, code := "B", name := "B", category := "c",
    price := some 101, cost := some 0, stock := some 2, minStock := some 0,
    supplier := "" }

/-- Valid edit form lowering `prodB`'s stock to one unit. -/
def editFormB : ProductForm := { createFormB with id := some 1, stock := some 1 }

/-- Database holding exactly `prodB`. -/
def dbWithProdB : DB := { emptyDB with products := [prodB], productKeyGen := 2 }

/-- Cart with one line for `prodB` and quantity 1. -/
def fractCart : List CartItem :=
  [{ id := 1, code := "B", name := "B", price := 101, quantity := 1,
     stock := 2 }]

/-- Cart with two units of `prodB` (obtained by clicking it twice in the
cashier grid, as certified in `commit_drives_stock_negative`). -/
def doubledCart : List CartItem :=
  [{ id := 1, code := "B", name := "B", price := 101, quantity := 2,
     stock := 2 }]

/-- Database holding `prodB` after its stock was edited down to one unit. -/
def dbProdB1 : DB :=
  { emptyDB with products := [{ prodB with stock := 1 }], productKeyGen := 2 }

/-- Supplier fixture with primary key 1. -/
def sup1 : Supplier :=
  { id := 1, code := "S1", name := "S", contact := "c", address := "a",
    email := none, phone := none }

/-- Database holding exactly supplier `sup1`. -/
def dbWithSup : DB := { emptyDB with suppliers := [sup1], supplierKeyGen := 2 }

/-- Create form for a product referencing supplier 1 through the dropdown
(whose `value` is the string `"1"`). -/
def createFormWithSup : ProductForm := { createFormB with supplier := "1" }

/-- Valid create form for a second supplier re-using `sup1`'s code. -/
def createSupForm : SupplierForm :=
  { id := none, code := "S1", name := "T", contact := "c", address := "a",
    email := "", phone := "" }

/-- A previously committed transaction occupying invoice number
`INV-1`. -/
def oldTx : TransactionRec :=
  { id := 1, invoice := "INV-1", items := [], subtotal := 0, discount := 0,
    tax := 0, total := 0, paymentMethod := "cash", amountReceived := 0,
    change := 0 }

/-- Database holding `prodB` and the committed transaction `oldTx`. -/
def dbWithOldTx : DB :=
  { dbWithProdB with transactions := [oldTx], transactionKeyGen := 2 }

/-- Every element of `modifyFirst p f l` is an element of `l` or the image
under `f` of an element of `l` that satisfies `p`. -/
theorem mem_modifyFirst {p : α → Bool} {f : α → α} {l : List α} {x : α}
    (hx : x ∈ modifyFirst p f l) : x ∈ l ∨ ∃ a ∈ l, p a ∧ x = f a := by
  induction l with
  | nil => simp [modifyFirst] at hx
  | cons a as ih =>
    rw [modifyFirst] at hx
    by_cases hpa : p a
    · rw [if_pos hpa] at hx
      rcases List.mem_cons.mp hx with hx | hx
      · exact Or.inr ⟨a, List.mem_cons_self a as, hpa, hx⟩
      · exact Or.inl (List.mem_cons_of_mem a hx)
    · rw [if_neg hpa] at hx
      rcases List.mem_cons.mp hx with hx | hx
      · exact Or.inl (hx ▸ List.mem_cons_self a as)
      · rcases ih hx with h | ⟨b, hb, hpb, hxb⟩
        · exact Or.inl (List.mem_cons_of_mem a h)
        · exact Or.inr ⟨b, List.mem_cons_of_mem a hb, hpb, hxb⟩

/-- Every element of `removeFirst p l` is an element of `l`. -/
theorem mem_removeFirst {p : α → Bool} {l : List α} {x : α}
    (hx : x ∈ removeFirst p l) : x ∈ l := by
  induction l with
  | nil => simp [removeFirst] at hx
  | cons a as ih =>
    rw [removeFirst] at hx
    split at hx
    · exact List.mem_cons_of_mem a hx
    · rcases List.mem_cons.mp hx with hx | hx
      · exact hx ▸ List.mem_cons_self a as
      · exact List.mem_cons_of_mem a (ih hx)

/-- If no list element has key `k`, the keyed conditional map is the
identity. -/
theorem map_ite_key_eq_self {α κ : Type} [DecidableEq κ] (key : α → κ)
    (k : κ) (f : α → α) (as : List α) (hk : ∀ b ∈ as, key b ≠ k) :
    as.map (fun a => if key a == k then f a else a) = as := by
  induction as with
  | nil => rfl
  | cons b bs ih =>
    have hb : key b ≠ k := hk b (List.mem_cons_self b bs)
    simp only [List.map_cons]
    rw [if_neg (by simpa using hb),
      ih (fun c hc => hk c (List.mem_cons_of_mem b hc))]

/-- On a list whose keys are pairwise distinct, updating the first element
with key `k` is the same as updating every element with key `k`. -/
theorem modifyFirst_eq_map_of_nodup {α κ : Type} [DecidableEq κ]
    (key : α → κ) (k : κ) (f : α → α) (l : List α)
    (h : (l.map key).Nodup) :
    modifyFirst (fun a => key a == k) f l =
      l.map (fun a => if key a == k then f a else a) := by
  induction l with
  | nil => rfl
  | cons a as ih =>
    rw [List.map_cons] at h
    by_cases hak : key a = k
    · have hnotin : ∀ b ∈ as, key b ≠ k := by
        intro b hb hbk
        have hmem : key b ∈ as.map key := List.mem_map_of_mem key hb
        rw [hbk, ← hak] at hmem
        exact (List.nodup_cons.mp h).1 hmem
      rw [modifyFirst, if_pos (beq_iff_eq.mpr hak), List.map_cons,
        if_pos (beq_iff_eq.mpr hak),
        map_ite_key_eq_self key k f as hnotin]
    · rw [modifyFirst, if_neg (by simpa using hak), List.map_cons,
        if_neg (by simpa using hak),
        ih (List.nodup_cons.mp h).2]

/-- With pairwise distinct cart line ids and pairwise distinct product
primary keys, the sequential stock loop of the commit equals the
per-product declarative view. -/
theorem foldl_decrementStock_eq_map :
    ∀ (cart : List CartItem) (ps : List Product),
      (cart.map CartItem.id).Nodup → (ps.map Product.id).Nodup →
      cart.foldl decrementStock ps = ps.map (commitStockView cart)
  | [], ps, _, _ => by
    simp only [List.foldl_nil, commitStockView, List.find?_nil]
    exact (List.map_id ps).symm
  | i :: cart, ps, hcart, hps => by
    have htail : (cart.map CartItem.id).Nodup := by
      rw [List.map_cons] at hcart
      exact (List.nodup_cons.mp hcart).2
    have hhead : ∀ j ∈ cart, j.id ≠ i.id := by
      intro j hj hji
      rw [List.map_cons] at hcart
      exact (List.nodup_cons.mp hcart).1 (hji ▸ List.mem_map_of_mem CartItem.id hj)
    have hstep : decrementStock ps i =
        ps.map (fun p => if p.id == i.id then
          { p with stock := p.stock - i.quantity } else p) :=
      modifyFirst_eq_map_of_nodup Product.id i.id _ ps hps
    have hids : (decrementStock ps i).map Product.id = ps.map Product.id := by
      rw [hstep, List.map_map]
      refine List.map_congr_left fun p _ => ?_
      by_cases hpi : p.id = i.id
      · simp [hpi]
      · simp [hpi]
    rw [List.foldl_cons,
      foldl_decrementStock_eq_map cart (decrementStock ps i) htail
        (hids ▸ hps),
      hstep, List.map_map]
    refine List.map_congr_left fun p _ => ?_
    show commitStockView cart
      (if p.id == i.id then { p with stock := p.stock - i.quantity } else p) =
      commitStockView (i :: cart) p
    by_cases hpi : p.id = i.id
    · rw [if_pos (beq_iff_eq.mpr hpi)]
      have hnone : cart.find? (fun j => j.id == p.id) = none :=
        List.find?_eq_none.mpr fun j hj =>
          by simpa using fun hji => hhead j hj (hji.trans hpi)
      have hcons : (i :: cart).find? (fun j => j.id == p.id) = some i :=
        List.find?_cons_of_pos cart (beq_iff_eq.mpr hpi.symm)
      simp only [commitStockView, hcons]
      simp only [commitStockView, hnone]
    · have hcons : (i :: cart).find? (fun j => j.id == p.id) =
          cart.find? (fun j => j.id == p.id) :=
        List.find?_cons_of_neg cart (by simpa using fun h => hpi h.symm)
      rw [if_neg (by simpa using hpi)]
      simp only [commitStockView, hcons]

/-- With nonnegative entered percentages, the value `calculateTotal`
renders equals the exact figure `subtotal - discount + tax` that
`processPayment` stores (the two computations differ syntactically: the
former skips a branch when the entered value is zero, which then
contributes zero anyway). -/
theorem calculateTotal_eq_exact (cart : List CartItem) (dOn : Bool)
    (dv : ℚ) (tOn : Bool) (tv : ℚ) (hdv : 0 ≤ dv) (htv : 0 ≤ tv) :
    calculateTotal cart dOn dv tOn tv =
      cartSubtotal cart - commitDiscount cart dOn dv
        + commitTax cart dOn dv tOn tv := by
  have e1 : ∀ S : ℚ, (if dOn ∧ 0 < dv then S - S * (dv / 100) else S) =
      S - (if dOn then S * (dv / 100) else 0) := by
    intro S
    cases dOn with
    | false => simp
    | true =>
      rcases eq_or_lt_of_le hdv with hd | hd
      · rw [← hd]; simp
      · simp [hd]
  have e2 : ∀ A : ℚ, (if tOn ∧ 0 < tv then A + A * (tv / 100) else A) =
      A + (if tOn then A * (tv / 100) else 0) := by
    intro A
    cases tOn with
    | false => simp
    | true =>
      rcases eq_or_lt_of_le htv with ht | ht
      · rw [← ht]; simp
      · simp [ht]
  simp only [calculateTotal, commitDiscount, commitTax]
  rw [e1, e2]

/-- Reading a nonnegative whole-number amount back from the display is the
identity (`toFixed(0)` leaves it unchanged and the digit filter only drops
the currency symbol and separators). -/
theorem displayedTotal_intCast (z : ℤ) (hz : 0 ≤ z) :
    displayedTotal (z : ℚ) = (z : ℚ) := by
  unfold displayedTotal
  have h1 : ⌊(z : ℚ) + 1 / 2⌋ = z := by
    rw [add_comm, Int.floor_add_int]
    norm_num
  rw [h1, Int.cast_natAbs, abs_of_nonneg (by exact_mod_cast hz)]

/-- C1: for every cart and nonnegative discount and tax percentages with
both toggles enabled, `calculateTotal` equals
`(subtotal * (1 - d/100)) * (1 + t/100)` — the discount applied strictly
before the tax; in particular the cart of one line with price 10000 and
quantity 2 under 10% discount and 10% tax has subtotal 20000 and total
19800. -/
theorem calculateTotal_discount_before_tax (cart : List CartItem)
    (d t : ℚ) (hd : 0 ≤ d) (ht : 0 ≤ t) :
    calculateTotal cart true d true t
      = (cartSubtotal cart * (1 - d / 100)) * (1 + t / 100) ∧
    cartSubtotal demoCart = 20000 ∧
    calculateTotal demoCart true 10 true 10 = 19800 := by
  refine ⟨?_, by norm_num [cartSubtotal, demoCart],
    by norm_num [calculateTotal, cartSubtotal, demoCart]⟩
  rw [calculateTotal_eq_exact cart true d true t hd ht]
  simp only [commitDiscount, commitTax, if_true]
  ring

/-- Witness for C1: the hypotheses hold at d = t = 10 and the formula
evaluates on the example cart. -/
theorem calculateTotal_discount_before_tax_witness :
    (0 : ℚ) ≤ 10 ∧
    calculateTotal demoCart true 10 true 10
      = (cartSubtotal demoCart * (1 - 10 / 100)) * (1 + 10 / 100) :=
  ⟨by norm_num,
   (calculateTotal_discount_before_tax demoCart 10 10 (by norm_num)
     (by norm_num)).1⟩

/-- C2: on a non-empty cart, when the amount received is below the
checkout total, `processPayment` refuses with the insufficient-payment
error and the database — every product, transaction, supplier, settings
and notification record — is left untouched. -/
theorem processPayment_insufficient_no_write (db : DB)
    (cart : List CartItem) (discountOn : Bool) (discountValue : ℚ)
    (taxOn : Bool) (taxValue : ℚ) (paymentMethod invoice : String)
    (amountReceived : ℚ) (hne : cart ≠ [])
    (hlt : amountReceived <
      displayedTotal (calculateTotal cart discountOn discountValue taxOn taxValue)) :
    processPayment db cart discountOn discountValue taxOn taxValue
      paymentMethod invoice amountReceived
      = (db, some PayError.insufficientPayment) := by
  have hempty : cart.isEmpty = false := by
    cases cart with
    | nil => exact absurd rfl hne
    | cons a l => rfl
  simp only [processPayment, hempty]
  simp [hlt]

/-- Witness for C2: a concrete refused checkout (total 19800, received 0)
on the example cart over the empty database. -/
theorem processPayment_insufficient_no_write_witness :
    demoCart ≠ [] ∧
    (0 : ℚ) < displayedTotal (calculateTotal demoCart true 10 true 10) ∧
    processPayment emptyDB demoCart true 10 true 10 "cash" "INV-X" 0
      = (emptyDB, some PayError.insufficientPayment) :=
  ⟨by decide,
   by norm_num [displayedTotal, calculateTotal, cartSubtotal, demoCart],
   processPayment_insufficient_no_write emptyDB demoCart true 10 true 10
     "cash" "INV-X" 0 (by decide)
     (by norm_num [displayedTotal, calculateTotal, cartSubtotal, demoCart])⟩

/-- C8: backing up, clearing the four backed-up stores and restoring
reproduces the exact record content of the products, transactions,
suppliers and settings stores; the notifications store is neither written
by restore nor contained in the backup file. -/
theorem backup_restore_roundtrip (d : DB) :
    (restoreData (backupData d) (clearBackedUpStores d)).products
      = d.products ∧
    (restoreData (backupData d) (clearBackedUpStores d)).transactions
      = d.transactions ∧
    (restoreData (backupData d) (clearBackedUpStores d)).suppliers
      = d.suppliers ∧
    (restoreData (backupData d) (clearBackedUpStores d)).settings
      = d.settings ∧
    (restoreData (backupData d) (clearBackedUpStores d)).notifications
      = d.notifications ∧
    backupData d = backupData { d with notifications := [] } :=
  ⟨rfl, rfl, rfl, rfl, rfl, rfl⟩

/-- C9: creating a second product (or supplier) with an already-used code
through an otherwise valid create form fails with the unique-constraint
violation surfaced as a field-level error on the code field, and the
store is left unchanged (in particular its record count). -/
theorem duplicate_code_rejected (dbp dbs : DB) (f : ProductForm)
    (g : SupplierForm)
    (hfv : validateProductForm f = true) (hfid : f.id = none)
    (hfdup : ∃ p ∈ dbp.products, p.code = jsTrim f.code)
    (hgv : validateSupplierForm g = true) (hgid : g.id = none)
    (hgdup : ∃ s ∈ dbs.suppliers, s.code = jsTrim g.code) :
    saveProduct dbp f = (dbp, SaveResult.codeFieldError) ∧
    saveSupplier dbs g = (dbs, SaveResult.codeFieldError) := by
  constructor
  · have hany : dbp.products.any (fun p => p.code == jsTrim f.code) = true := by
      rcases hfdup with ⟨p, hp, hcode⟩
      exact List.any_eq_true.mpr ⟨p, hp, beq_iff_eq.mpr hcode⟩
    simp [saveProduct, hfv, hfid, hany]
  · have hany : dbs.suppliers.any (fun s => s.code == jsTrim g.code) = true := by
      rcases hgdup with ⟨s, hs, hcode⟩
      exact List.any_eq_true.mpr ⟨s, hs, beq_iff_eq.mpr hcode⟩
    simp [saveSupplier, hgv, hgid, hany]

/-- Witness for C9: concrete duplicate-code creates for product code "B"
and supplier code "S1". -/
theorem duplicate_code_rejected_witness :
    validateProductForm createFormB = true ∧
    (∃ p ∈ dbWithProdB.products, p.code = jsTrim createFormB.code) ∧
    validateSupplierForm createSupForm = true ∧
    (∃ s ∈ dbWithSup.suppliers, s.code = jsTrim createSupForm.code) ∧
    saveProduct dbWithProdB createFormB
      = (dbWithProdB, SaveResult.codeFieldError) ∧
    saveSupplier dbWithSup createSupForm
      = (dbWithSup, SaveResult.codeFieldError) := by
  have h := duplicate_code_rejected dbWithProdB dbWithSup createFormB
    createSupForm (by decide) (by decide) (by decide) (by decide)
    (by decide) (by decide)
  exact ⟨by decide, by decide, by decide, by decide, h.1, h.2⟩

/-- C10: none of the six cart operations writes to any persisted store:
the database component of the application state is unchanged by every one
of them. -/
theorem cart_ops_no_persistence_write (s : AppState) (product : Product)
    (id : ℕ) (quantity : ℤ) (confirmed : Bool) :
    (appAddToCart product s).1.db = s.db ∧
    (appIncreaseQuantity id s).1.db = s.db ∧
    (appDecreaseQuantity id s).1.db = s.db ∧
    (appUpdateQuantity id quantity s).1.db = s.db ∧
    (appRemoveFromCart id s).1.db = s.db ∧
    (appClearCart confirmed s).1.db = s.db :=
  ⟨rfl, rfl, rfl, rfl, rfl, rfl⟩

/-- C3 counterexample: a valid non-empty cart with sufficient payment
whose generated invoice number is already taken (a same-second timestamp
collision) makes the transaction write reject, so `processPayment` fails
with a storage failure and persists nothing — the claim's unconditional
"commit succeeds" is false. -/
theorem processPayment_invoice_collision :
    fractCart ≠ [] ∧
    (fractCart.map CartItem.id).Nodup ∧
    (∀ i ∈ fractCart, ∃ p ∈ dbWithOldTx.products, p.id = i.id) ∧
    displayedTotal (calculateTotal fractCart false 0 false 0) ≤ 1000 ∧
    processPayment dbWithOldTx fractCart false 0 false 0 "cash" "INV-1" 1000
      = (dbWithOldTx, some PayError.storageFailure) := by
  refine ⟨by decide, by decide, by decide, ?_, ?_⟩
  · norm_num [displayedTotal, calculateTotal, cartSubtotal, fractCart]
  · norm_num [processPayment, displayedTotal, calculateTotal, cartSubtotal,
      fractCart, dbWithOldTx, dbWithProdB, emptyDB, oldTx]

/-- C3 (amended): for a valid non-empty cart — pairwise distinct line ids
matching products with pairwise distinct primary keys — with sufficient
payment and a not-yet-used invoice number, the commit succeeds: exactly
one transaction record is appended, its items are the snapshot of the cart
lines, and every product named by a cart line has its stock decremented by
exactly that line's quantity while every other product record is
unchanged. -/
theorem processPayment_success_commits (db : DB) (cart : List CartItem)
    (discountOn : Bool) (discountValue : ℚ) (taxOn : Bool) (taxValue : ℚ)
    (paymentMethod invoice : String) (amountReceived : ℚ)
    (hne : cart ≠ [])
    (hcart : (cart.map CartItem.id).Nodup)
    (hdb : (db.products.map Product.id).Nodup)
    (hfresh : ∀ t ∈ db.transactions, t.invoice ≠ invoice)
    (hpay : displayedTotal
      (calculateTotal cart discountOn discountValue taxOn taxValue)
      ≤ amountReceived) :
    (processPayment db cart discountOn discountValue taxOn taxValue
      paymentMethod invoice amountReceived).2 = none ∧
    (∃ t, (processPayment db cart discountOn discountValue taxOn taxValue
        paymentMethod invoice amountReceived).1.transactions
          = db.transactions ++ [t] ∧
      t.items = cart.map toTransactionItem) ∧
    (processPayment db cart discountOn discountValue taxOn taxValue
      paymentMethod invoice amountReceived).1.products
        = db.products.map (commitStockView cart) := by
  have hempty : cart.isEmpty = false := by
    cases cart with
    | nil => exact absurd rfl hne
    | cons a l => rfl
  have hnlt : ¬ (amountReceived < displayedTotal
      (calculateTotal cart discountOn discountValue taxOn taxValue)) :=
    not_lt.mpr hpay
  have hany : db.transactions.any (fun t => t.invoice == invoice) = false := by
    rw [List.any_eq_false]
    intro t ht
    simpa using hfresh t ht
  simp only [processPayment, hempty, Bool.false_eq_true, if_false, hnlt,
    hany]
  exact ⟨trivial, ⟨_, rfl, rfl⟩,
    foldl_decrementStock_eq_map cart db.products hcart hdb⟩

/-- Witness for the amended C3: a concrete successful commit of one line
of `prodB` against the store holding it. -/
theorem processPayment_success_commits_witness :
    (fractCart.map CartItem.id).Nodup ∧
    displayedTotal (calculateTotal fractCart false 0 false 0) ≤ 1000 ∧
    ((processPayment dbWithProdB fractCart false 0 false 0 "cash" "INV-9"
        1000).2 = none ∧
     (∃ t, (processPayment dbWithProdB fractCart false 0 false 0 "cash"
          "INV-9" 1000).1.transactions = dbWithProdB.transactions ++ [t] ∧
        t.items = fractCart.map toTransactionItem) ∧
     (processPayment dbWithProdB fractCart false 0 false 0 "cash" "INV-9"
        1000).1.products
          = dbWithProdB.products.map (commitStockView fractCart)) :=
  ⟨by decide,
   by norm_num [displayedTotal, calculateTotal, cartSubtotal, fractCart],
   processPayment_success_commits dbWithProdB fractCart false 0 false 0
     "cash" "INV-9" 1000 (by decide) (by decide) (by decide) (by decide)
     (by norm_num [displayedTotal, calculateTotal, cartSubtotal, fractCart])⟩

/-- C4 counterexample: committing one unit of the 101-priced product under
a 10% discount stores subtotal 101, discount 10.1, tax 0 but total 91 (the
display-rounded amount), and 101 - 10.1 + 0 = 90.9 ≠ 91 — the claimed
exact identity `total = subtotal - discount + tax` fails on the persisted
record. -/
theorem transaction_total_not_exact_sum :
    (processPayment dbWithProdB fractCart true 10 false 0 "cash" "INV-4"
      100).2 = none ∧
    ((processPayment dbWithProdB fractCart true 10 false 0 "cash" "INV-4"
        100).1.transactions.map
      (fun t => (t.subtotal, t.discount, t.tax, t.total)))
      = [((101 : ℚ), 101 / 10, 0, 91)] ∧
    ¬ ((101 : ℚ) - 101 / 10 + 0 = 91) := by
  refine ⟨?_, ?_, by norm_num⟩
  · norm_num [processPayment, displayedTotal, calculateTotal, cartSubtotal,
      fractCart, dbWithProdB, emptyDB]
  · norm_num [processPayment, displayedTotal, calculateTotal, cartSubtotal,
      fractCart, dbWithProdB, emptyDB, commitDiscount, commitTax]

/-- C4 (amended): every transaction record created by a successful commit
(nonnegative entered percentages, fresh invoice) satisfies
`total = round(subtotal - discount + tax)` where `round` is the display
rounding of `displayedTotal` — in particular `total` equals
`subtotal - discount + tax` exactly whenever that figure is a nonnegative
whole number — and `change = amountReceived - total` with `change ≥ 0` at
commit time. -/
theorem transaction_total_display_rounded (db : DB) (cart : List CartItem)
    (discountOn : Bool) (discountValue : ℚ) (taxOn : Bool) (taxValue : ℚ)
    (paymentMethod invoice : String) (amountReceived : ℚ)
    (hne : cart ≠ [])
    (hdv : 0 ≤ discountValue) (htv : 0 ≤ taxValue)
    (hfresh : ∀ t ∈ db.transactions, t.invoice ≠ invoice)
    (hpay : displayedTotal
      (calculateTotal cart discountOn discountValue taxOn taxValue)
      ≤ amountReceived) :
    ∃ t, (processPayment db cart discountOn discountValue taxOn taxValue
        paymentMethod invoice amountReceived).1.transactions
          = db.transactions ++ [t] ∧
      t.total = displayedTotal (t.subtotal - t.discount + t.tax) ∧
      t.change = t.amountReceived - t.total ∧
      0 ≤ t.change ∧
      (∀ z : ℤ, t.subtotal - t.discount + t.tax = (z : ℚ) → 0 ≤ z →
        t.total = t.subtotal - t.discount + t.tax) := by
  have hempty : cart.isEmpty = false := by
    cases cart with
    | nil => exact absurd rfl hne
    | cons a l => rfl
  have hnlt : ¬ (amountReceived < displayedTotal
      (calculateTotal cart discountOn discountValue taxOn taxValue)) :=
    not_lt.mpr hpay
  have hany : db.transactions.any (fun t => t.invoice == invoice) = false := by
    rw [List.any_eq_false]
    intro t ht
    simpa using hfresh t ht
  have hexact : calculateTotal cart discountOn discountValue taxOn taxValue
      = cartSubtotal cart - commitDiscount cart discountOn discountValue
        + commitTax cart discountOn discountValue taxOn taxValue :=
    calculateTotal_eq_exact cart discountOn discountValue taxOn taxValue
      hdv htv
  simp only [processPayment, hempty, Bool.false_eq_true, if_false, hnlt,
    hany]
  refine ⟨_, rfl, ?_, rfl, sub_nonneg.mpr hpay, ?_⟩
  · exact congrArg displayedTotal hexact
  · intro z hz hz0
    show displayedTotal
      (calculateTotal cart discountOn discountValue taxOn taxValue) = _
    rw [hexact, hz, displayedTotal_intCast z hz0]

/-- Witness for the amended C4: the concrete 101-priced commit under 10%
discount. -/
theorem transaction_total_display_rounded_witness :
    (0 : ℚ) ≤ 10 ∧
    displayedTotal (calculateTotal fractCart true 10 false 0) ≤ 100 ∧
    (∃ t, (processPayment dbWithProdB fractCart true 10 false 0 "cash"
        "INV-5" 100).1.transactions = dbWithProdB.transactions ++ [t] ∧
      t.total = displayedTotal (t.subtotal - t.discount + t.tax) ∧
      t.change = t.amountReceived - t.total ∧
      0 ≤ t.change ∧
      (∀ z : ℤ, t.subtotal - t.discount + t.tax = (z : ℚ) → 0 ≤ z →
        t.total = t.subtotal - t.discount + t.tax)) :=
  ⟨by norm_num,
   by norm_num [displayedTotal, calculateTotal, cartSubtotal, fractCart],
   transaction_total_display_rounded dbWithProdB fractCart true 10 false 0
     "cash" "INV-5" 100 (by decide) (by norm_num) (by norm_num) (by decide)
     (by norm_num [displayedTotal, calculateTotal, cartSubtotal, fractCart])⟩

/-- C5 counterexample: add a product while its stock is 1, then (after the
product is restocked to 3 and the grid reloaded) add it again.  The second
`addToCart` checks the fresh product's stock but neither consults nor
refreshes the line's cached snapshot, so it succeeds — the line ends with
quantity 2 against a stored snapshot of 1, violating the claimed
invariant, and the add at the snapshot limit was not rejected. -/
theorem addToCart_breaks_snapshot_invariant :
    (addToCart unitStockProduct []).1
      = [{ id := 1, code := "A", name := "A", price := 5, quantity := 1,
           stock := 1 }] ∧
    addToCart { unitStockProduct with stock := 3 }
        (addToCart unitStockProduct []).1
      = ([{ id := 1, code := "A", name := "A", price := 5, quantity := 2,
            stock := 1 }], CartMsg.addedQty) ∧
    ¬ CartInv (addToCart { unitStockProduct with stock := 3 }
        (addToCart unitStockProduct []).1).1 := by
  refine ⟨by decide, by decide, ?_⟩
  intro h
  exact absurd (h { id := 1, code := "A", name := "A", price := 5, quantity := 2, stock := 1 } (by decide)).2 (by decide)

/-- C5 (amended): on a cart satisfying the line invariant
`1 ≤ quantity ≤ snapshot` with pairwise distinct line ids, every cart
operation preserves the invariant, provided each `addToCart` of an
already-carted product passes a product whose stock still equals the
line's cached snapshot (the stock was not changed in between); under the
same proviso an add at the snapshot limit is rejected with the
insufficient-stock warning leaving the cart unchanged, and an add of an
absent product with zero stock is rejected with the out-of-stock
warning. -/
theorem cart_ops_preserve_snapshot_invariant (cart : List CartItem)
    (hinv : CartInv cart) (hnodup : (cart.map CartItem.id).Nodup) :
    (∀ product : Product,
      (∀ l ∈ cart, l.id = product.id → l.stock = product.stock) →
      CartInv (addToCart product cart).1) ∧
    (∀ product : Product, product.stock = 0 →
      (∀ l ∈ cart, l.id ≠ product.id) →
      addToCart product cart = (cart, CartMsg.outOfStock)) ∧
    (∀ product : Product, ∀ l ∈ cart, l.id = product.id →
      l.stock = product.stock → l.quantity = l.stock →
      addToCart product cart = (cart, CartMsg.insufficientStock)) ∧
    (∀ id, CartInv (increaseQuantity id cart).1) ∧
    (∀ id, CartInv (decreaseQuantity id cart).1) ∧
    (∀ id q, CartInv (updateQuantity id q cart).1) ∧
    (∀ id, CartInv (removeFromCart id cart).1) ∧
    (∀ confirmed, CartInv (clearCart confirmed cart).1) := by
  have hinj : ∀ a ∈ cart, ∀ b ∈ cart, a.id = b.id → a = b :=
    List.inj_on_of_nodup_map hnodup
  have hremove : ∀ id, CartInv (removeFromCart id cart).1 := by
    intro id
    rcases hfind : cart.findIdx? (fun item => item.id == id) with _ | n
    · simp only [removeFromCart, hfind]
      exact hinv
    · simp only [removeFromCart, hfind]
      intro l hl
      exact hinv l (mem_removeFirst hl)
  refine ⟨?_, ?_, ?_, ?_, ?_, ?_, hremove, ?_⟩
  · -- addToCart preserves the invariant when snapshots agree
    intro product hstock
    rcases hfind : cart.find? (fun item => item.id == product.id)
      with _ | existing
    · simp only [addToCart, hfind]
      by_cases hpos : 0 < product.stock
      · rw [if_pos hpos]
        intro l hl
        rcases List.mem_append.mp hl with hmem | hnew
        · exact hinv l hmem
        · rcases List.mem_singleton.mp hnew with rfl
          exact ⟨le_refl 1, by simpa using hpos⟩
      · rw [if_neg hpos]
        exact hinv
    · have hex_mem : existing ∈ cart := List.mem_of_find?_eq_some hfind
      have hex_id : existing.id = product.id := by
        simpa using List.find?_some hfind
      simp only [addToCart, hfind]
      by_cases hlt : existing.quantity < product.stock
      · rw [if_pos hlt]
        intro l hl
        rcases mem_modifyFirst hl with hmem | ⟨a, ha, hpa, rfl⟩
        · exact hinv l hmem
        · have haid : a.id = product.id := by simpa using hpa
          obtain ⟨hq1, hq2⟩ := hinv a ha
          have hsnap : a.stock = product.stock := hstock a ha haid
          have haex : a = existing := hinj a ha existing hex_mem
            (haid.trans hex_id.symm)
          subst haex
          constructor
          · show 1 ≤ a.quantity + 1
            omega
          · show a.quantity + 1 ≤ a.stock
            omega
      · rw [if_neg hlt]
        exact hinv
  · -- absent product with zero stock is refused
    intro product hzero habsent
    have hfind : cart.find? (fun item => item.id == product.id) = none :=
      List.find?_eq_none.mpr fun l hl => by
        simpa using habsent l hl
    simp only [addToCart, hfind]
    rw [if_neg (by rw [hzero]; exact lt_irrefl 0)]
  · -- re-add at the snapshot limit is refused, cart unchanged
    intro product l hl hlid hlsnap hlfull
    rcases hfind : cart.find? (fun item => item.id == product.id)
      with _ | existing
    · exact absurd (List.find?_eq_none.mp hfind l hl)
        (by simpa using hlid)
    · have hex_mem : existing ∈ cart := List.mem_of_find?_eq_some hfind
      have hex_id : existing.id = product.id := by
        simpa using List.find?_some hfind
      have hle : l = existing := hinj l hl existing hex_mem
        (hlid.trans hex_id.symm)
      subst hle
      simp only [addToCart, hfind]
      rw [if_neg (by omega)]
  · -- increaseQuantity
    intro id
    rcases hfind : cart.find? (fun item => item.id == id) with _ | item
    · simp only [increaseQuantity, hfind]
      exact hinv
    · have hit_mem : item ∈ cart := List.mem_of_find?_eq_some hfind
      have hit_id : item.id = id := by simpa using List.find?_some hfind
      simp only [increaseQuantity, hfind]
      by_cases hlt : item.quantity < item.stock
      · rw [if_pos hlt]
        intro l hl
        rcases mem_modifyFirst hl with hmem | ⟨a, ha, hpa, rfl⟩
        · exact hinv l hmem
        · have haid : a.id = id := by simpa using hpa
          obtain ⟨hq1, hq2⟩ := hinv a ha
          have hai : a = item := hinj a ha item hit_mem
            (haid.trans hit_id.symm)
          subst hai
          constructor
          · show 1 ≤ a.quantity + 1
            omega
          · show a.quantity + 1 ≤ a.stock
            omega
      · rw [if_neg hlt]
        exact hinv
  · -- decreaseQuantity
    intro id
    rcases hfind : cart.find? (fun item => item.id == id) with _ | item
    · simp only [decreaseQuantity, hfind]
      exact hinv
    · simp only [decreaseQuantity, hfind]
      by_cases hgt : 1 < item.quantity
      · rw [if_pos hgt]
        intro l hl
        rcases mem_modifyFirst hl with hmem | ⟨a, ha, hpa, rfl⟩
        · exact hinv l hmem
        · have hit_mem : item ∈ cart := List.mem_of_find?_eq_some hfind
          have hit_id : item.id = id := by
            simpa using List.find?_some hfind
          have haid : a.id = id := by simpa using hpa
          obtain ⟨hq1, hq2⟩ := hinv a ha
          have hai : a = item := hinj a ha item hit_mem
            (haid.trans hit_id.symm)
          subst hai
          constructor
          · show 1 ≤ a.quantity - 1
            omega
          · show a.quantity - 1 ≤ a.stock
            omega
      · rw [if_neg hgt]
        exact hinv
  · -- updateQuantity
    intro id q
    by_cases hq1 : q < 1
    · simp only [updateQuantity, if_pos hq1]
      exact hremove id
    · simp only [updateQuantity, if_neg hq1]
      rcases hfind : cart.find? (fun item => item.id == id) with _ | item
      · simp only [hfind]
        exact hinv
      · have hit_mem : item ∈ cart := List.mem_of_find?_eq_some hfind
        have hit_id : item.id = id := by
          simpa using List.find?_some hfind
        simp only [hfind]
        by_cases hle : q ≤ item.stock
        · rw [if_pos hle]
          intro l hl
          rcases mem_modifyFirst hl with hmem | ⟨a, ha, hpa, rfl⟩
          · exact hinv l hmem
          · have haid : a.id = id := by simpa using hpa
            have hai : a = item := hinj a ha item hit_mem
              (haid.trans hit_id.symm)
            subst hai
            constructor
            · show 1 ≤ q
              omega
            · show q ≤ a.stock
              omega
        · rw [if_neg hle]
          intro l hl
          rcases mem_modifyFirst hl with hmem | ⟨a, ha, hpa, rfl⟩
          · exact hinv l hmem
          · obtain ⟨hq1, hq2⟩ := hinv a ha
            constructor
            · show 1 ≤ a.stock
              omega
            · show a.stock ≤ a.stock
              omega
  · -- clearCart
    intro confirmed
    by_cases hc : cart ≠ [] ∧ confirmed = true
    · simp only [clearCart, if_pos hc]
      intro l hl
      exact absurd hl (List.not_mem_nil l)
    · simp only [clearCart, if_neg hc]
      exact hinv

/-- Witness for the amended C5: the invariant holds after increasing the
quantity on the example cart. -/
theorem cart_ops_preserve_snapshot_invariant_witness :
    CartInv demoCart ∧ (demoCart.map CartItem.id).Nodup ∧
    CartInv (increaseQuantity 1 demoCart).1 :=
  ⟨by decide, by decide,
   (cart_ops_preserve_snapshot_invariant demoCart (by decide)
     (by decide)).2.2.2.1 1⟩

/-- A validated product form always yields a nonnegative stored stock. -/
theorem buildProduct_stock_nonneg (f : ProductForm) (id : ℕ)
    (h : validateProductForm f = true) : 0 ≤ (buildProduct f id).stock := by
  simp only [validateProductForm, Bool.and_eq_true] at h
  obtain ⟨⟨⟨⟨⟨⟨h1, h2⟩, h3⟩, h4⟩, h5⟩, h6⟩, h7⟩ := h
  cases hs : f.stock with
  | none => rw [hs] at h6; exact absurd h6 (by simp)
  | some s =>
    rw [hs] at h6
    have hstock : 0 ≤ s := of_decide_eq_true h6
    simpa [buildProduct, hs] using hstock

/-- A catalog save (create or edit) never stores a negative stock: either
the form fails validation and nothing is written, or the written record's
stock is the validated nonnegative form value. -/
theorem saveProduct_stock_nonneg (db : DB) (f : ProductForm)
    (h : ∀ p ∈ db.products, 0 ≤ p.stock) :
    ∀ p ∈ (saveProduct db f).1.products, 0 ≤ p.stock := by
  intro p hp
  unfold saveProduct at hp
  split at hp
  · exact h p hp
  · rename_i hv
    have hval : validateProductForm f = true := not_not.mp hv
    split at hp
    · rename_i pid hpid
      split at hp
      · exact h p hp
      · split at hp
        · rcases mem_modifyFirst hp with hmem | ⟨a, ha, hpa, rfl⟩
          · exact h p hmem
          · exact buildProduct_stock_nonneg f pid hval
        · rcases List.mem_append.mp hp with hmem | hnew
          · exact h p hmem
          · rcases List.mem_singleton.mp hnew with rfl
            exact buildProduct_stock_nonneg f pid hval
    · split at hp
      · exact h p hp
      · rcases List.mem_append.mp hp with hmem | hnew
        · exact h p hmem
        · rcases List.mem_singleton.mp hnew with rfl
          exact buildProduct_stock_nonneg f db.productKeyGen hval

/-- Under the commit side condition — distinct line ids, unique primary
keys, every line quantity within the currently stored stock — a commit
keeps every stored stock nonnegative. -/
theorem processPayment_stock_nonneg (db : DB) (cart : List CartItem)
    (dOn : Bool) (dv : ℚ) (tOn : Bool) (tv : ℚ) (pm inv : String) (amt : ℚ)
    (hguard : commitGuard db cart = true)
    (h : ∀ p ∈ db.products, 0 ≤ p.stock) :
    ∀ p ∈ (processPayment db cart dOn dv tOn tv pm inv amt).1.products,
      0 ≤ p.stock := by
  simp only [commitGuard, Bool.and_eq_true, decide_eq_true_eq,
    List.all_eq_true, Bool.or_eq_true, bne_iff_ne, ne_eq] at hguard
  obtain ⟨⟨hnodupC, hnodupP⟩, hbound⟩ := hguard
  intro p hp
  simp only [processPayment] at hp
  split at hp
  · exact h p hp
  · split at hp
    · exact h p hp
    · split at hp
      · exact h p hp
      · rw [show ({ db with
            transactions := db.transactions ++ [_],
            transactionKeyGen := db.transactionKeyGen + 1,
            products := cart.foldl decrementStock db.products } : DB).products
            = cart.foldl decrementStock db.products from rfl,
          foldl_decrementStock_eq_map cart db.products hnodupC hnodupP] at hp
        rcases List.mem_map.mp hp with ⟨p0, hp0, rfl⟩
        unfold commitStockView
        split
        · rename_i i hfind
          have hi_mem : i ∈ cart := List.mem_of_find?_eq_some hfind
          have hi_id : i.id = p0.id := by simpa using List.find?_some hfind
          have hb := hbound i hi_mem p0 hp0
          have hle : i.quantity ≤ p0.stock := by
            rcases hb with hne | hle
            · exact absurd hi_id.symm hne
            · exact hle
          have h0 := h p0 hp0
          show 0 ≤ p0.stock - i.quantity
          omega
        · exact h p0 hp0

/-- C6 (amended): over any sequence of product creates, edits and checkout
commits in which each commit's cart has pairwise distinct line ids and
per-line quantities within the product's stock as stored at commit time
(and primary keys are unique), every persisted stock stays nonnegative;
creates and edits need no side condition because their validation rejects
negative stock. -/
theorem stockOps_preserve_nonneg_stock (ops : List StockOp) :
    ∀ db : DB, stockOpsGuard db ops = true →
      (∀ p ∈ db.products, 0 ≤ p.stock) →
      ∀ p ∈ (applyStockOps db ops).products, 0 ≤ p.stock := by
  induction ops with
  | nil => intro db _ h p hp; exact h p hp
  | cons op ops ih =>
    intro db hguard h
    rw [stockOpsGuard.eq_def] at hguard
    dsimp only at hguard
    rw [Bool.and_eq_true] at hguard
    obtain ⟨hop, hrest⟩ := hguard
    have hstep : ∀ p ∈ (applyStockOp db op).products, 0 ≤ p.stock := by
      cases op with
      | save f => exact saveProduct_stock_nonneg db f h
      | commit cart dOn dv tOn tv pm inv amt =>
        exact processPayment_stock_nonneg db cart dOn dv tOn tv pm inv amt
          hop h
    exact ih (applyStockOp db op) hrest hstep

/-- Witness for the amended C6: creating `prodB` and committing one unit
of it keeps all stocks nonnegative. -/
theorem stockOps_preserve_nonneg_stock_witness :
    stockOpsGuard emptyDB
      [StockOp.save createFormB,
       StockOp.commit fractCart false 0 false 0 "cash" "INV-7" 1000]
      = true ∧
    (∀ p ∈ (applyStockOps emptyDB
        [StockOp.save createFormB,
         StockOp.commit fractCart false 0 false 0 "cash" "INV-7"
           1000]).products, 0 ≤ p.stock) :=
  ⟨by decide,
   stockOps_preserve_nonneg_stock _ emptyDB (by decide) (by decide)⟩

/-- C6 counterexample: create a product with stock 2, put two units of it
in the cart, edit the product's stock down to 1, then commit.  The commit
succeeds (payment covers the displayed total) and writes stock
1 - 2 = -1: a persisted negative stock, reached through only create, edit
and commit operations. -/
theorem commit_drives_stock_negative :
    doubledCart = (addToCart prodB ((addToCart prodB []).1)).1 ∧
    (saveProduct emptyDB createFormB).1 = dbWithProdB ∧
    (saveProduct dbWithProdB editFormB).1 = dbProdB1 ∧
    (applyStockOps emptyDB
      [StockOp.save createFormB, StockOp.save editFormB,
       StockOp.commit doubledCart false 0 false 0 "cash" "INV-6"
         1000]).products.map Product.stock = [-1] ∧
    ¬ (0 ≤ (-1 : ℤ)) := by
  have h1 : (saveProduct emptyDB createFormB).1 = dbWithProdB := by decide
  have h2 : (saveProduct dbWithProdB editFormB).1 = dbProdB1 := by decide
  refine ⟨by decide, h1, h2, ?_, by decide⟩
  simp only [applyStockOps, applyStockOp, h1, h2]
  norm_num [processPayment, displayedTotal, calculateTotal, cartSubtotal,
    doubledCart, dbProdB1, emptyDB, prodB, decrementStock, modifyFirst,
    List.foldl]

/-- C7 (code defect): the product form stores the supplier reference as
the dropdown's string value, while `deleteSupplier` counts references
with the numeric id as the index key — a string key never equals a number
key, so the count is 0 and the supplier is deleted even though a product
created through the form still references it.  The spec requires the
deletion to fail with a referential block here. -/
theorem deleteSupplier_misses_string_reference :
    (saveProduct dbWithSup createFormWithSup).1.products.map
        Product.supplierId = [some (IDBKey.str "1")] ∧
    (saveProduct dbWithSup createFormWithSup).1.suppliers = [sup1] ∧
    deleteSupplier true 1 (saveProduct dbWithSup createFormWithSup).1
      = ({ (saveProduct dbWithSup createFormWithSup).1 with
           suppliers := [] }, DeleteResult.deleted) := by
  refine ⟨by decide, by decide, by decide⟩
